import Mathlib

/-!
# Verification of the goplaces repository

Shallow embedding of the goplaces server (`src/server/src/index.ts`) and the
client-side image cache logic (`src/client/src/App.tsx`), with theorems
settling the claims about the coordinate formatter, the `/api/generate`
handler, and the client cache round trip.

JavaScript numbers are modelled as exact rationals, with `none` standing for
`NaN`; the arithmetic appearing in the source (`Math.abs`, `Math.floor`,
`Math.round`, subtraction, multiplication, `>= 0`) is embedded with the
JS `NaN`-propagation semantics.
-/

namespace GoPlaces

/-- A JavaScript number: an exact rational, or `none` for `NaN`. -/
def JSNum := Option ℚ

instance : DecidableEq JSNum := inferInstanceAs (DecidableEq (Option ℚ))

/-- `Math.abs`; `Math.abs(NaN) = NaN`. -/
def jsAbs : JSNum → JSNum := Option.map (fun q => |q|)

/-- `Math.floor`; `Math.floor(NaN) = NaN`. -/
def jsFloor : JSNum → JSNum := Option.map (fun q => ((⌊q⌋ : ℤ) : ℚ))

/-- `Math.round` (halves round toward +∞, as in JS); `Math.round(NaN) = NaN`. -/
def jsRound : JSNum → JSNum := Option.map (fun q => ((round q : ℤ) : ℚ))

/-- JS subtraction; `NaN` propagates. -/
def jsSub : JSNum → JSNum → JSNum
  | some a, some b => some (a - b)
  | _, _ => none

/-- JS multiplication (restricted to the exact-rational fragment); `NaN` propagates. -/
def jsMul : JSNum → JSNum → JSNum
  | some a, some b => some (a * b)
  | _, _ => none

/-- The JS comparison `x >= 0`: `false` when `x` is `NaN`. -/
def jsGe0 : JSNum → Bool
  | none => false
  | some q => decide (0 ≤ q)

/-- JS number-to-string conversion as used in the template literal of
`convertToDMS`: `NaN` renders as `"NaN"`; an integer-valued number renders
as its decimal integer numeral.  (In the source every interpolated value is
the result of `Math.floor`/`Math.round`, hence integral or `NaN`; the
non-integral branch is included only for totality.) -/
def jsToString : JSNum → String
  | none => "NaN"
  | some q => if q.den = 1 then toString q.num else toString q

/-- `convertToDMS` from `src/server/src/index.ts` (lines 25–41): convert a
decimal-degree latitude/longitude pair to a DMS string
`D°M′S″H, D°M′S″H`. -/
def convertToDMS (lat lng : JSNum) : String :=
  let latDir := if jsGe0 lat then "N" else "S"
  let lngDir := if jsGe0 lng then "E" else "W"
  let absLat := jsAbs lat
  let absLng := jsAbs lng
  let latDeg := jsFloor absLat
  let latMin := jsFloor (jsMul (jsSub absLat latDeg) (some 60))
  let latSec := jsRound (jsMul (jsSub (jsMul (jsSub absLat latDeg) (some 60)) latMin) (some 60))
  let lngDeg := jsFloor absLng
  let lngMin := jsFloor (jsMul (jsSub absLng lngDeg) (some 60))
  let lngSec := jsRound (jsMul (jsSub (jsMul (jsSub absLng lngDeg) (some 60)) lngMin) (some 60))
  jsToString latDeg ++ "°" ++ jsToString latMin ++ "′" ++ jsToString latSec ++ "″" ++ latDir
    ++ ", " ++ jsToString lngDeg ++ "°" ++ jsToString lngMin ++ "′" ++ jsToString lngSec
    ++ "″" ++ lngDir

/-- Degree component of one axis, as computed by `convertToDMS` on a
non-`NaN` input. -/
def dmsDeg (q : ℚ) : ℤ := ⌊|q|⌋

/-- Minute component of one axis, as computed by `convertToDMS` on a
non-`NaN` input. -/
def dmsMin (q : ℚ) : ℤ := ⌊(|q| - (dmsDeg q : ℚ)) * 60⌋

/-- Second component of one axis, as computed by `convertToDMS` on a
non-`NaN` input. -/
def dmsSec (q : ℚ) : ℤ := round (((|q| - (dmsDeg q : ℚ)) * 60 - (dmsMin q : ℚ)) * 60)

theorem jsToString_intCast (n : ℤ) : jsToString (some ((n : ℤ) : ℚ)) = toString n := by
  simp [jsToString, Rat.den_intCast, Rat.num_intCast]

/-- On non-`NaN` inputs, `convertToDMS` renders exactly the components
`dmsDeg`, `dmsMin`, `dmsSec` with sign-chosen hemisphere letters. -/
theorem convertToDMS_some (lat lng : ℚ) :
    convertToDMS (some lat) (some lng) =
      toString (dmsDeg lat) ++ "°" ++ toString (dmsMin lat) ++ "′" ++ toString (dmsSec lat)
        ++ "″" ++ (if 0 ≤ lat then "N" else "S") ++ ", "
        ++ toString (dmsDeg lng) ++ "°" ++ toString (dmsMin lng) ++ "′"
        ++ toString (dmsSec lng) ++ "″" ++ (if 0 ≤ lng then "E" else "W") := by
  simp only [convertToDMS, jsAbs, jsFloor, jsMul, jsSub, jsRound, jsGe0, Option.map,
    decide_eq_true_eq, jsToString_intCast, dmsDeg, dmsMin, dmsSec]

theorem dmsDeg_nonneg (q : ℚ) : 0 ≤ dmsDeg q :=
  Int.floor_nonneg.mpr (abs_nonneg q)

theorem dmsDeg_le (q : ℚ) (B : ℤ) (h : |q| ≤ (B : ℚ)) : dmsDeg q ≤ B := by
  have h2 := Int.floor_le_floor h
  rw [Int.floor_intCast] at h2
  exact h2

theorem dmsMin_eq_floor_fract (q : ℚ) : dmsMin q = ⌊Int.fract |q| * 60⌋ := by
  unfold dmsMin dmsDeg
  rw [Int.self_sub_floor]

theorem dmsMin_nonneg (q : ℚ) : 0 ≤ dmsMin q := by
  rw [dmsMin_eq_floor_fract]
  exact Int.floor_nonneg.mpr (mul_nonneg (Int.fract_nonneg _) (by norm_num))

theorem dmsMin_le (q : ℚ) : dmsMin q ≤ 59 := by
  rw [dmsMin_eq_floor_fract]
  have h : Int.fract |q| * 60 < ((60 : ℤ) : ℚ) := by
    have h1 := Int.fract_lt_one (|q|)
    have h0 := Int.fract_nonneg (|q|)
    push_cast
    nlinarith
  have h2 : ⌊Int.fract |q| * 60⌋ < (60 : ℤ) := Int.floor_lt.mpr h
  omega

theorem dmsSec_eq_round_fract (q : ℚ) :
    dmsSec q = round (Int.fract (Int.fract |q| * 60) * 60) := by
  unfold dmsSec
  rw [dmsMin_eq_floor_fract]
  unfold dmsDeg
  rw [Int.self_sub_floor, Int.self_sub_floor]

theorem dmsSec_nonneg (q : ℚ) : 0 ≤ dmsSec q := by
  rw [dmsSec_eq_round_fract, round_eq]
  refine Int.floor_nonneg.mpr ?_
  have h0 := Int.fract_nonneg (Int.fract |q| * 60)
  nlinarith

theorem dmsSec_le (q : ℚ) : dmsSec q ≤ 60 := by
  rw [dmsSec_eq_round_fract, round_eq]
  have h : Int.fract (Int.fract |q| * 60) * 60 + 1 / 2 < ((61 : ℤ) : ℚ) := by
    have h1 := Int.fract_lt_one (Int.fract |q| * 60)
    have h0 := Int.fract_nonneg (Int.fract |q| * 60)
    push_cast
    nlinarith
  have h2 : ⌊Int.fract (Int.fract |q| * 60) * 60 + 1 / 2⌋ < (61 : ℤ) := Int.floor_lt.mpr h
  omega

theorem dmsDeg_eval (q : ℚ) (hq : 0 ≤ q) (d : ℤ) (h1 : (d : ℚ) ≤ q) (h2 : q < d + 1) :
    dmsDeg q = d := by
  unfold dmsDeg
  rw [abs_of_nonneg hq]
  exact Int.floor_eq_iff.mpr ⟨h1, h2⟩

theorem dmsMin_eval (q : ℚ) (hq : 0 ≤ q) (d m : ℤ) (hdeg : dmsDeg q = d)
    (h1 : (m : ℚ) ≤ (q - d) * 60) (h2 : (q - d) * 60 < m + 1) : dmsMin q = m := by
  unfold dmsMin
  rw [hdeg, abs_of_nonneg hq]
  exact Int.floor_eq_iff.mpr ⟨h1, h2⟩

theorem dmsSec_eval (q : ℚ) (hq : 0 ≤ q) (d m s : ℤ) (hdeg : dmsDeg q = d)
    (hmin : dmsMin q = m) (h1 : (s : ℚ) ≤ ((q - d) * 60 - m) * 60 + 1 / 2)
    (h2 : ((q - d) * 60 - m) * 60 + 1 / 2 < s + 1) : dmsSec q = s := by
  unfold dmsSec
  rw [hdeg, hmin, abs_of_nonneg hq, round_eq]
  exact Int.floor_eq_iff.mpr ⟨h1, h2⟩

/-- The DMS string exactly as the specification describes it, written from the
spec's words alone: for each axis `D = floor(|value|)`,
`M = floor((|value| - D) * 60)`, `S = round(((|value| - D) * 60 - M) * 60)`,
and the hemisphere letter is chosen by sign with zero treated as
non-negative. -/
def claimDMS (lat lng : ℚ) : String :=
  let dLat : ℤ := ⌊|lat|⌋
  let mLat : ℤ := ⌊(|lat| - (dLat : ℚ)) * 60⌋
  let sLat : ℤ := round (((|lat| - (dLat : ℚ)) * 60 - (mLat : ℚ)) * 60)
  let hLat : String := if 0 ≤ lat then "N" else "S"
  let dLng : ℤ := ⌊|lng|⌋
  let mLng : ℤ := ⌊(|lng| - (dLng : ℚ)) * 60⌋
  let sLng : ℤ := round (((|lng| - (dLng : ℚ)) * 60 - (mLng : ℚ)) * 60)
  let hLng : String := if 0 ≤ lng then "E" else "W"
  toString dLat ++ "°" ++ toString mLat ++ "′" ++ toString sLat ++ "″" ++ hLat
    ++ ", " ++ toString dLng ++ "°" ++ toString mLng ++ "′" ++ toString sLng ++ "″" ++ hLng

/-- The value of a list of decimal digit characters. -/
def digitsVal (ds : List Char) : ℕ :=
  ds.foldl (fun a c => a * 10 + (c.toNat - 48)) 0

/-- Models the JavaScript `parseFloat` builtin applied to a form field
(`parseFloat(req.body.lat)` in the handler): a missing field (`none`, i.e.
JS `undefined`) parses to `NaN`; otherwise an optional sign, an integer
digit run and an optional fractional digit run are consumed and trailing
characters are ignored; when no digit is found the result is `NaN`.
(Exponent notation and leading whitespace, irrelevant to the claims, are
not modelled.) -/
def jsParseFloat (field : Option String) : JSNum :=
  match field with
  | none => none
  | some s =>
    let cs := s.data
    let signAndRest : ℚ × List Char :=
      match cs with
      | '-' :: rest => (-1, rest)
      | '+' :: rest => (1, rest)
      | _ => (1, cs)
    let intPart := signAndRest.2.takeWhile Char.isDigit
    let afterInt := signAndRest.2.dropWhile Char.isDigit
    let fracPart : List Char :=
      match afterInt with
      | '.' :: rest => rest.takeWhile Char.isDigit
      | _ => []
    if intPart.isEmpty && fracPart.isEmpty then none
    else some (signAndRest.1 *
      ((digitsVal intPart : ℚ) + (digitsVal fracPart : ℚ) / ((10 : ℚ) ^ fracPart.length)))

/-! ## The `/api/generate` handler (`src/server/src/index.ts`, lines 47-125)

The handler is embedded as a pure function from the request parts and the
behaviour of the two external services to the ordered trace of its
observable effects (external calls, the HTTP response, the temp-file
unlink).  `fs.readFileSync(file.path)` is modelled by the uploaded file
carrying its byte content. -/

/-- A multipart upload received through multer (`req.file`). -/
structure UploadedFile where
  path : String
  mimetype : String
  bytes : List ℕ
deriving DecidableEq

/-- One entry of the generation service's `images` list (or its singular
`image` field); the `url` field may be absent. -/
structure GenImage where
  url : Option String
deriving DecidableEq

/-- The `data` object of the generation service's response: an optional
`images` list and an optional singular `image` field. -/
structure GenData where
  images : Option (List GenImage)
  image : Option GenImage
deriving DecidableEq

/-- The value returned by `fal.subscribe`: a `data` payload and a tracking
`requestId`. -/
structure GenResult where
  data : Option GenData
  requestId : String
deriving DecidableEq

/-- The JSON body sent on the success path. -/
structure SuccessBody where
  success : Bool
  imageUrl : String
  message : String
  requestId : String
deriving DecidableEq

/-- An HTTP response produced by the handler: `res.json(body)` (status 200)
or `res.status(s).json({error})`. -/
inductive Resp where
  | ok (body : SuccessBody)
  | fail (status : ℕ) (error : String)
deriving DecidableEq

/-- An observable effect of one handler run, in order. -/
inductive Event where
  | storageUpload (bytes : List ℕ) (mime : String)
  | falSubscribe (prompt : String) (imageUrls : List String)
  | send (r : Resp)
  | unlink (path : String)
deriving DecidableEq

/-- JS truthiness of a `string | undefined` value: `undefined` and the empty
string are falsy. -/
def jsTruthy : Option String → Bool
  | none => false
  | some s => !(s == "")

/-- JS `a || b` on `string | undefined` values. -/
def jsOrElse (a b : Option String) : Option String :=
  if jsTruthy a then a else b

/-- `result.data?.images?.[0]?.url` (optional chaining). -/
def imagesFirstUrl (d : Option GenData) : Option String :=
  ((d.bind GenData.images).bind List.head?).bind GenImage.url

/-- `result.data?.image?.url` (optional chaining). -/
def singularImageUrl (d : Option GenData) : Option String :=
  (d.bind GenData.image).bind GenImage.url

/-- The extraction step of the handler:
`result.data?.images?.[0]?.url || result.data?.image?.url`, followed by the
`if (!generatedImageUrl) throw new Error('No image generated')` guard; a
falsy outcome (absent or empty) is `none`. -/
def extractUrl (d : Option GenData) : Option String :=
  let g := jsOrElse (imagesFirstUrl d) (singularImageUrl d)
  if jsTruthy g then g else none

/-- The fixed prompt template built around the DMS location string. -/
def promptFor (locationDMS : String) : String :=
  "Create an image of " ++ locationDMS ++ " with this person there. Use ONLY the person from the uploaded image - ignore all background, objects, and scenery from the original photo. Use good lighting and natural pose that fits the location. The person should look natural and well-integrated into the environment."

/-- The `POST /api/generate` handler.  `latField`/`lngField` are the raw
`req.body.lat`/`req.body.lng` form fields (absent = `none`), `file` is
`req.file`, `storage` is the external `fal.storage.upload` call and
`subscribe` the external `fal.subscribe` call, each either returning a
value or throwing (`Except.error` carries the thrown error's message).
The result is the ordered trace of observable effects. -/
def apiGenerate (latField lngField : Option String) (file : Option UploadedFile)
    (storage : List ℕ → String → Except String String)
    (subscribe : String → List String → Except String GenResult) : List Event :=
  match file with
  | none => [Event.send (Resp.fail 400 "No image file provided")]
  | some f =>
    let imageBuffer := f.bytes
    match storage imageBuffer f.mimetype with
    | Except.error e =>
      [Event.storageUpload imageBuffer f.mimetype,
       Event.send (Resp.fail 500 ("Failed to generate image. " ++ e))]
    | Except.ok uploadedImage =>
      let locationDMS := convertToDMS (jsParseFloat latField) (jsParseFloat lngField)
      let prompt := promptFor locationDMS
      match subscribe prompt [uploadedImage] with
      | Except.error e =>
        [Event.storageUpload imageBuffer f.mimetype,
         Event.falSubscribe prompt [uploadedImage],
         Event.send (Resp.fail 500 ("Failed to generate image. " ++ e))]
      | Except.ok result =>
        match extractUrl result.data with
        | none =>
          [Event.storageUpload imageBuffer f.mimetype,
           Event.falSubscribe prompt [uploadedImage],
           Event.send (Resp.fail 500 ("Failed to generate image. " ++ "No image generated"))]
        | some generatedImageUrl =>
          [Event.storageUpload imageBuffer f.mimetype,
           Event.falSubscribe prompt [uploadedImage],
           Event.send (Resp.ok
             { success := true
               imageUrl := generatedImageUrl
               message := "Image generated successfully with fal.ai"
               requestId := result.requestId }),
           Event.unlink f.path]

/-! ## Client-side image cache (`src/client/src/App.tsx`)

`handleImageUpload` caches the uploaded file as a base64 data URL under the
fixed localStorage key; `loadSavedImage` (on startup) and the pre-send retry
in `handleGenerate` rebuild a `File` from that cached string via
`fetch(savedImage)` → `blob()` → `new File([blob], 'uploaded-image.jpg',
{ type: 'image/jpeg' })`.  The browser primitives
(`FileReader.readAsDataURL`, fetching a data URL) are embedded as a
standard base64 encoder/decoder over byte lists. -/

/-- A browser `File`: name, declared MIME type, byte content. -/
structure JSFile where
  name : String
  type : String
  bytes : List ℕ
deriving DecidableEq

/-- The standard base64 alphabet. -/
def b64Alphabet : List Char :=
  "ABCDEFGHIJKLMNOPQRSTUVWXYZabcdefghijklmnopqrstuvwxyz0123456789+/".data

/-- The base64 character of a 6-bit value. -/
def encC (n : ℕ) : Char := b64Alphabet.getD n '?'

/-- The 6-bit value of a base64 character, if any. -/
def decC (c : Char) : Option ℕ := b64Alphabet.findIdx? (fun a => a == c)

/-- Base64-encode a byte list (with `=` padding), as the browser does when
producing a data URL. -/
def b64encode : List ℕ → List Char
  | [] => []
  | [a] => [encC (a / 4), encC (a % 4 * 16), '=', '=']
  | [a, b] => [encC (a / 4), encC (a % 4 * 16 + b / 16), encC (b % 16 * 4), '=']
  | a :: b :: d :: rest =>
    encC (a / 4) :: encC (a % 4 * 16 + b / 16) :: encC (b % 16 * 4 + d / 64)
      :: encC (d % 64) :: b64encode rest

/-- Base64-decode a character list, as the browser does when a data URL is
fetched; `none` on malformed input. -/
def b64decode : List Char → Option (List ℕ)
  | [] => some []
  | w :: x :: y :: z :: rest =>
    if y = '=' then
      if z = '=' ∧ rest = [] then
        match decC w, decC x with
        | some w2, some x2 => some [w2 * 4 + x2 / 16]
        | _, _ => none
      else none
    else if z = '=' then
      if rest = [] then
        match decC w, decC x, decC y with
        | some w2, some x2, some y2 => some [w2 * 4 + x2 / 16, x2 % 16 * 16 + y2 / 4]
        | _, _, _ => none
      else none
    else
      match decC w, decC x, decC y, decC z, b64decode rest with
      | some w2, some x2, some y2, some z2, some bs =>
        some ((w2 * 4 + x2 / 16) :: (x2 % 16 * 16 + y2 / 4) :: (y2 % 4 * 64 + z2) :: bs)
      | _, _, _, _, _ => none
  | _ => none

/-- `FileReader.readAsDataURL`: the base64 data URL of a file's content. -/
def readAsDataURL (f : JSFile) : String :=
  "data:" ++ f.type ++ ";base64," ++ String.mk (b64encode f.bytes)

/-- Split a character list at its first comma. -/
def splitAtComma : List Char → Option (List Char × List Char)
  | [] => none
  | c :: cs =>
    if c = ',' then some ([], cs)
    else (splitAtComma cs).map (fun p => (c :: p.1, p.2))

/-- `fetch(dataUrl)` → `res.blob()`: the bytes encoded in a base64 data URL
(everything after the first comma, base64-decoded). -/
def fetchDataURLBytes (s : String) : Option (List ℕ) :=
  match splitAtComma s.data with
  | none => none
  | some p => b64decode p.2

/-- The fixed localStorage key used by the client. -/
def goplacesKey : String := "goplaces_uploaded_image"

/-- `localStorage.setItem`. -/
def setItem (store : String → Option String) (k v : String) : String → Option String :=
  fun k2 => if k2 = k then some v else store k2

/-- `localStorage.getItem`. -/
def getItem (store : String → Option String) (k : String) : Option String :=
  store k

/-- `handleImageUpload`: cache the uploaded file's data URL under the fixed
key (the resulting store). -/
def handleImageUpload (store : String → Option String) (f : JSFile) :
    String → Option String :=
  setItem store goplacesKey (readAsDataURL f)

/-- The file-reconstruction step shared by `loadSavedImage` and the pre-send
retry in `handleGenerate`:
`new File([await (await fetch(cached)).blob()], 'uploaded-image.jpg',
{ type: 'image/jpeg' })`. -/
def fileFromCache (cached : String) : Option JSFile :=
  (fetchDataURLBytes cached).map
    (fun bs => { name := "uploaded-image.jpg", type := "image/jpeg", bytes := bs })

theorem decC_encC : ∀ n : ℕ, n < 64 → decC (encC n) = some n ∧ encC n ≠ '=' := by decide

theorem b64_roundtrip : ∀ bs : List ℕ, (∀ b ∈ bs, b < 256) →
    b64decode (b64encode bs) = some bs := by
  intro bs
  induction bs using b64encode.induct with
  | case1 =>
    intro _
    rfl
  | case2 a =>
    intro hb
    have ha : a < 256 := hb a (by simp)
    have h1 := decC_encC (a / 4) (by omega)
    have h2 := decC_encC (a % 4 * 16) (by omega)
    simp [b64decode, h1.1, h2.1]
    omega
  | case3 a b =>
    intro hb
    have ha : a < 256 := hb a (by simp)
    have hb2 : b < 256 := hb b (by simp)
    have h1 := decC_encC (a / 4) (by omega)
    have h2 := decC_encC (a % 4 * 16 + b / 16) (by omega)
    have h3 := decC_encC (b % 16 * 4) (by omega)
    simp [b64decode, h1.1, h2.1, h3.1, h3.2]
    omega
  | case4 a b d rest ih =>
    intro hb
    have ha : a < 256 := hb a (by simp)
    have hb2 : b < 256 := hb b (by simp)
    have hd : d < 256 := hb d (by simp)
    have hrest : ∀ x ∈ rest, x < 256 := fun x hx => hb x (by simp [hx])
    have h1 := decC_encC (a / 4) (by omega)
    have h2 := decC_encC (a % 4 * 16 + b / 16) (by omega)
    have h3 := decC_encC (b % 16 * 4 + d / 64) (by omega)
    have h4 := decC_encC (d % 64) (by omega)
    simp [b64decode, h1.1, h2.1, h3.1, h4.1, h3.2, h4.2, ih hrest]
    omega

theorem splitAtComma_append (pre post : List Char) (h : ',' ∉ pre) :
    splitAtComma (pre ++ ',' :: post) = some (pre, post) := by
  induction pre with
  | nil => simp [splitAtComma]
  | cons c cs ih =>
    have hc : ¬c = ',' := fun e => h (by simp [e])
    have hcs : ',' ∉ cs := fun hm => h (List.mem_cons_of_mem _ hm)
    simp only [List.cons_append, splitAtComma, if_neg hc, List.append_eq]
    rw [ih hcs]
    rfl

theorem cache_bytes_roundtrip (f : JSFile) (hb : ∀ b ∈ f.bytes, b < 256)
    (ht : ',' ∉ f.type.data) : fetchDataURLBytes (readAsDataURL f) = some f.bytes := by
  unfold fetchDataURLBytes readAsDataURL
  have hdata : ("data:" ++ f.type ++ ";base64," ++ String.mk (b64encode f.bytes)).data
      = ("data:".data ++ f.type.data ++ ";base64".data) ++ ',' :: b64encode f.bytes := by
    simp [String.data_append]
  have hnc : ',' ∉ "data:".data ++ f.type.data ++ ";base64".data := by
    intro hm
    rcases List.mem_append.mp hm with hm1 | hm2
    · rcases List.mem_append.mp hm1 with hm3 | hm4
      · exact absurd hm3 (by decide)
      · exact ht hm4
    · exact absurd hm2 (by decide)
  rw [hdata, splitAtComma_append _ _ hnc]
  exact b64_roundtrip f.bytes hb

/-! ## Claims -/

/-- C1: for every finite coordinate pair, `convertToDMS` returns the string
`D°M′S″H, D°M′S″H` computed exactly as the spec's algorithm states
(`claimDMS`), and in particular `convertToDMS(25.1972, 55.2744)
= 25°11′50″N, 55°16′28″E` and `convertToDMS(0, 0) = 0°0′0″N, 0°0′0″E`. -/
theorem claim_C1 :
    (∀ lat lng : ℚ, convertToDMS (some lat) (some lng) = claimDMS lat lng) ∧
    convertToDMS (some (251972 / 10000)) (some (552744 / 10000)) = "25°11′50″N, 55°16′28″E" ∧
    convertToDMS (some 0) (some 0) = "0°0′0″N, 0°0′0″E" := by
  refine ⟨fun lat lng => ?_, ?_, ?_⟩
  · rw [convertToDMS_some]
    rfl
  · have d1 : dmsDeg (251972 / 10000 : ℚ) = 25 :=
      dmsDeg_eval _ (by norm_num) 25 (by norm_num) (by norm_num)
    have m1 : dmsMin (251972 / 10000 : ℚ) = 11 :=
      dmsMin_eval _ (by norm_num) 25 11 d1 (by norm_num) (by norm_num)
    have s1 : dmsSec (251972 / 10000 : ℚ) = 50 :=
      dmsSec_eval _ (by norm_num) 25 11 50 d1 m1 (by norm_num) (by norm_num)
    have d2 : dmsDeg (552744 / 10000 : ℚ) = 55 :=
      dmsDeg_eval _ (by norm_num) 55 (by norm_num) (by norm_num)
    have m2 : dmsMin (552744 / 10000 : ℚ) = 16 :=
      dmsMin_eval _ (by norm_num) 55 16 d2 (by norm_num) (by norm_num)
    have s2 : dmsSec (552744 / 10000 : ℚ) = 28 :=
      dmsSec_eval _ (by norm_num) 55 16 28 d2 m2 (by norm_num) (by norm_num)
    rw [convertToDMS_some, d1, m1, s1, d2, m2, s2,
      if_pos (by norm_num : (0 : ℚ) ≤ 251972 / 10000),
      if_pos (by norm_num : (0 : ℚ) ≤ 552744 / 10000)]
    rfl
  · have d0 : dmsDeg (0 : ℚ) = 0 := dmsDeg_eval _ le_rfl 0 (by norm_num) (by norm_num)
    have m0 : dmsMin (0 : ℚ) = 0 := dmsMin_eval _ le_rfl 0 0 d0 (by norm_num) (by norm_num)
    have s0 : dmsSec (0 : ℚ) = 0 := dmsSec_eval _ le_rfl 0 0 0 d0 m0 (by norm_num) (by norm_num)
    rw [convertToDMS_some, d0, m0, s0, if_pos (le_refl (0 : ℚ))]
    rfl

/-- C5: for latitudes in [-90, 90] and longitudes in [-180, 180] the
formatter (a pure function, hence deterministic) renders exactly the
components `dmsDeg`/`dmsMin`/`dmsSec`, whose degree parts lie in [0, 90]
resp. [0, 180] and whose minute parts lie in [0, 59]; the second parts lie
in [0, 60], 60 arising only in the rounding-to-60 edge case. -/
theorem claim_C5 (lat lng : ℚ) (hlat1 : -90 ≤ lat) (hlat2 : lat ≤ 90)
    (hlng1 : -180 ≤ lng) (hlng2 : lng ≤ 180) :
    convertToDMS (some lat) (some lng) =
      toString (dmsDeg lat) ++ "°" ++ toString (dmsMin lat) ++ "′" ++ toString (dmsSec lat)
        ++ "″" ++ (if 0 ≤ lat then "N" else "S") ++ ", "
        ++ toString (dmsDeg lng) ++ "°" ++ toString (dmsMin lng) ++ "′"
        ++ toString (dmsSec lng) ++ "″" ++ (if 0 ≤ lng then "E" else "W") ∧
    0 ≤ dmsDeg lat ∧ dmsDeg lat ≤ 90 ∧ 0 ≤ dmsMin lat ∧ dmsMin lat ≤ 59 ∧
    0 ≤ dmsSec lat ∧ dmsSec lat ≤ 60 ∧
    0 ≤ dmsDeg lng ∧ dmsDeg lng ≤ 180 ∧ 0 ≤ dmsMin lng ∧ dmsMin lng ≤ 59 ∧
    0 ≤ dmsSec lng ∧ dmsSec lng ≤ 60 := by
  refine ⟨convertToDMS_some lat lng, dmsDeg_nonneg lat, ?_, dmsMin_nonneg lat, dmsMin_le lat,
    dmsSec_nonneg lat, dmsSec_le lat, dmsDeg_nonneg lng, ?_, dmsMin_nonneg lng, dmsMin_le lng,
    dmsSec_nonneg lng, dmsSec_le lng⟩
  · exact dmsDeg_le lat 90 (by rw [abs_le]; exact ⟨by exact_mod_cast hlat1, by exact_mod_cast hlat2⟩)
  · exact dmsDeg_le lng 180 (by rw [abs_le]; exact ⟨by exact_mod_cast hlng1, by exact_mod_cast hlng2⟩)

/-- Witness for C5 at the concrete coordinate (0, 0). -/
theorem claim_C5_witness :
    convertToDMS (some (0 : ℚ)) (some (0 : ℚ)) =
      toString (dmsDeg (0 : ℚ)) ++ "°" ++ toString (dmsMin (0 : ℚ)) ++ "′"
        ++ toString (dmsSec (0 : ℚ)) ++ "″" ++ (if (0 : ℚ) ≤ 0 then "N" else "S") ++ ", "
        ++ toString (dmsDeg (0 : ℚ)) ++ "°" ++ toString (dmsMin (0 : ℚ)) ++ "′"
        ++ toString (dmsSec (0 : ℚ)) ++ "″" ++ (if (0 : ℚ) ≤ 0 then "E" else "W") ∧
    0 ≤ dmsDeg (0 : ℚ) ∧ dmsDeg (0 : ℚ) ≤ 90 ∧ 0 ≤ dmsMin (0 : ℚ) ∧ dmsMin (0 : ℚ) ≤ 59 ∧
    0 ≤ dmsSec (0 : ℚ) ∧ dmsSec (0 : ℚ) ≤ 60 ∧
    0 ≤ dmsDeg (0 : ℚ) ∧ dmsDeg (0 : ℚ) ≤ 180 ∧ 0 ≤ dmsMin (0 : ℚ) ∧ dmsMin (0 : ℚ) ≤ 59 ∧
    0 ≤ dmsSec (0 : ℚ) ∧ dmsSec (0 : ℚ) ≤ 60 :=
  claim_C5 0 0 (by norm_num) (by norm_num) (by norm_num) (by norm_num)

/-- C6: the seconds-rounding-to-60 quirk is real and not carried over into
the minutes: at latitude 8999/9000 (≈ 0.99989) the formatted output has
seconds component 60 while the minutes component stays 59. -/
theorem claim_C6 :
    convertToDMS (some (8999 / 9000)) (some 0) = "0°59′60″N, 0°0′0″E" := by
  have d1 : dmsDeg (8999 / 9000 : ℚ) = 0 :=
    dmsDeg_eval _ (by norm_num) 0 (by norm_num) (by norm_num)
  have m1 : dmsMin (8999 / 9000 : ℚ) = 59 :=
    dmsMin_eval _ (by norm_num) 0 59 d1 (by norm_num) (by norm_num)
  have s1 : dmsSec (8999 / 9000 : ℚ) = 60 :=
    dmsSec_eval _ (by norm_num) 0 59 60 d1 m1 (by norm_num) (by norm_num)
  have d0 : dmsDeg (0 : ℚ) = 0 := dmsDeg_eval _ le_rfl 0 (by norm_num) (by norm_num)
  have m0 : dmsMin (0 : ℚ) = 0 := dmsMin_eval _ le_rfl 0 0 d0 (by norm_num) (by norm_num)
  have s0 : dmsSec (0 : ℚ) = 0 := dmsSec_eval _ le_rfl 0 0 0 d0 m0 (by norm_num) (by norm_num)
  rw [convertToDMS_some, d1, m1, s1, d0, m0, s0,
    if_pos (by norm_num : (0 : ℚ) ≤ 8999 / 9000), if_pos (le_refl (0 : ℚ))]
  rfl

/-- C2: a request without an image file is rejected with a 400 `{error}`
response and neither the storage upload nor the generation service is
invoked. -/
theorem claim_C2 (latField lngField : Option String)
    (storage : List ℕ → String → Except String String)
    (subscribe : String → List String → Except String GenResult) :
    apiGenerate latField lngField none storage subscribe
      = [Event.send (Resp.fail 400 "No image file provided")] ∧
    (∀ bs m, Event.storageUpload bs m ∉ apiGenerate latField lngField none storage subscribe) ∧
    (∀ p us, Event.falSubscribe p us ∉ apiGenerate latField lngField none storage subscribe) := by
  refine ⟨rfl, ?_, ?_⟩ <;> intro a b <;> simp [apiGenerate]

/-- C3: when the storage upload throws, the handler responds 500 with the
upstream message wrapped into the error text, and the generation service is
never called. -/
theorem claim_C3 (latField lngField : Option String) (f : UploadedFile)
    (storage : List ℕ → String → Except String String)
    (subscribe : String → List String → Except String GenResult) (e : String)
    (h : storage f.bytes f.mimetype = Except.error e) :
    apiGenerate latField lngField (some f) storage subscribe
      = [Event.storageUpload f.bytes f.mimetype,
         Event.send (Resp.fail 500 ("Failed to generate image. " ++ e))] ∧
    (∀ p us, Event.falSubscribe p us ∉
      apiGenerate latField lngField (some f) storage subscribe) := by
  refine ⟨?_, ?_⟩
  · simp only [apiGenerate, h]
  · intro p us
    simp [apiGenerate, h]

/-- Witness for C3: a concrete run whose storage upload throws "boom". -/
theorem claim_C3_witness :
    apiGenerate none none (some ⟨"uploads/tmp1", "image/png", [1, 2, 3]⟩)
        (fun _ _ => Except.error "boom") (fun _ _ => Except.error "unused")
      = [Event.storageUpload [1, 2, 3] "image/png",
         Event.send (Resp.fail 500 ("Failed to generate image. " ++ "boom"))] ∧
    (∀ p us, Event.falSubscribe p us ∉
      apiGenerate none none (some ⟨"uploads/tmp1", "image/png", [1, 2, 3]⟩)
        (fun _ _ => Except.error "boom") (fun _ _ => Except.error "unused")) :=
  claim_C3 none none ⟨"uploads/tmp1", "image/png", [1, 2, 3]⟩
    (fun _ _ => Except.error "boom") (fun _ _ => Except.error "unused") "boom" rfl

/-- C4: after the generation call returns, the first usable image URL is
extracted images-list-first: a response `{images: [{url: X}]}` with `X`
non-empty yields a 200 success body carrying `X` and the call's
`requestId`; an empty `images` list with no `image` field yields the 500
"no image generated" error. -/
theorem claim_C4 :
    (∀ (latField lngField : Option String) (f : UploadedFile)
       (storage : List ℕ → String → Except String String)
       (subscribe : String → List String → Except String GenResult)
       (u : String) (r : GenResult) (x : String) (rest : List GenImage) (d : GenData),
       storage f.bytes f.mimetype = Except.ok u →
       subscribe (promptFor (convertToDMS (jsParseFloat latField) (jsParseFloat lngField))) [u]
         = Except.ok r →
       r.data = some d → d.images = some ({ url := some x } :: rest) → x ≠ "" →
       apiGenerate latField lngField (some f) storage subscribe
         = [Event.storageUpload f.bytes f.mimetype,
            Event.falSubscribe
              (promptFor (convertToDMS (jsParseFloat latField) (jsParseFloat lngField))) [u],
            Event.send (Resp.ok
              { success := true
                imageUrl := x
                message := "Image generated successfully with fal.ai"
                requestId := r.requestId }),
            Event.unlink f.path]) ∧
    (∀ (latField lngField : Option String) (f : UploadedFile)
       (storage : List ℕ → String → Except String String)
       (subscribe : String → List String → Except String GenResult)
       (u : String) (r : GenResult) (d : GenData),
       storage f.bytes f.mimetype = Except.ok u →
       subscribe (promptFor (convertToDMS (jsParseFloat latField) (jsParseFloat lngField))) [u]
         = Except.ok r →
       r.data = some d → d.images = some [] → d.image = none →
       apiGenerate latField lngField (some f) storage subscribe
         = [Event.storageUpload f.bytes f.mimetype,
            Event.falSubscribe
              (promptFor (convertToDMS (jsParseFloat latField) (jsParseFloat lngField))) [u],
            Event.send (Resp.fail 500 ("Failed to generate image. " ++ "No image generated"))]) := by
  constructor
  · intro latField lngField f storage subscribe u r x rest d hst hsub hdata him hx
    simp only [apiGenerate, hst, hsub, extractUrl, imagesFirstUrl, singularImageUrl, hdata, him,
      Option.bind, List.head?, jsOrElse, jsTruthy]
    simp [hx]
  · intro latField lngField f storage subscribe u r d hst hsub hdata him hnone
    simp only [apiGenerate, hst, hsub, extractUrl, imagesFirstUrl, singularImageUrl, hdata, him,
      hnone, Option.bind, List.head?, jsOrElse, jsTruthy]
    simp

/-- Witness for C4: concrete runs of both the success-extraction and the
empty-images cases. -/
theorem claim_C4_witness :
    apiGenerate none none (some ⟨"uploads/tmp2", "image/png", [7]⟩)
        (fun _ _ => Except.ok "https://storage/img")
        (fun _ _ => Except.ok ⟨some ⟨some [⟨some "https://out/img"⟩], none⟩, "req-42"⟩)
      = [Event.storageUpload [7] "image/png",
         Event.falSubscribe (promptFor (convertToDMS (jsParseFloat none) (jsParseFloat none)))
           ["https://storage/img"],
         Event.send (Resp.ok
           { success := true
             imageUrl := "https://out/img"
             message := "Image generated successfully with fal.ai"
             requestId := "req-42" }),
         Event.unlink "uploads/tmp2"] ∧
    apiGenerate none none (some ⟨"uploads/tmp3", "image/png", [8]⟩)
        (fun _ _ => Except.ok "https://storage/img")
        (fun _ _ => Except.ok ⟨some ⟨some [], none⟩, "req-43"⟩)
      = [Event.storageUpload [8] "image/png",
         Event.falSubscribe (promptFor (convertToDMS (jsParseFloat none) (jsParseFloat none)))
           ["https://storage/img"],
         Event.send (Resp.fail 500 ("Failed to generate image. " ++ "No image generated"))] :=
  ⟨claim_C4.1 none none ⟨"uploads/tmp2", "image/png", [7]⟩
      (fun _ _ => Except.ok "https://storage/img")
      (fun _ _ => Except.ok ⟨some ⟨some [⟨some "https://out/img"⟩], none⟩, "req-42"⟩)
      "https://storage/img" ⟨some ⟨some [⟨some "https://out/img"⟩], none⟩, "req-42"⟩
      "https://out/img" [] ⟨some [⟨some "https://out/img"⟩], none⟩
      rfl rfl rfl rfl (by decide),
   claim_C4.2 none none ⟨"uploads/tmp3", "image/png", [8]⟩
      (fun _ _ => Except.ok "https://storage/img")
      (fun _ _ => Except.ok ⟨some ⟨some [], none⟩, "req-43"⟩)
      "https://storage/img" ⟨some ⟨some [], none⟩, "req-43"⟩ ⟨some [], none⟩
      rfl rfl rfl rfl rfl⟩

/-- C7: whenever a request that carried a file leads to a temp-file unlink,
the unlink is the final effect and a success response was sent before it;
and on every failure path (a `fail` response sent after a file was
received) no unlink happens at all. -/
theorem claim_C7 (latField lngField : Option String) (f : UploadedFile)
    (storage : List ℕ → String → Except String String)
    (subscribe : String → List String → Except String GenResult) :
    (∀ p, Event.unlink p ∈ apiGenerate latField lngField (some f) storage subscribe →
       p = f.path ∧
       ∃ pre, apiGenerate latField lngField (some f) storage subscribe
           = pre ++ [Event.unlink p] ∧
         ∃ b, Event.send (Resp.ok b) ∈ pre) ∧
    (∀ s m, Event.send (Resp.fail s m) ∈ apiGenerate latField lngField (some f) storage subscribe →
       ∀ p, Event.unlink p ∉ apiGenerate latField lngField (some f) storage subscribe) := by
  cases hst : storage f.bytes f.mimetype with
  | error e =>
    refine ⟨?_, ?_⟩
    · intro p hp
      simp [apiGenerate, hst] at hp
    · intro s m _ p
      simp [apiGenerate, hst]
  | ok u =>
    cases hsub : subscribe (promptFor (convertToDMS (jsParseFloat latField) (jsParseFloat lngField))) [u] with
    | error e =>
      refine ⟨?_, ?_⟩
      · intro p hp
        simp [apiGenerate, hst, hsub] at hp
      · intro s m _ p
        simp [apiGenerate, hst, hsub]
    | ok r =>
      cases hex : extractUrl r.data with
      | none =>
        refine ⟨?_, ?_⟩
        · intro p hp
          simp [apiGenerate, hst, hsub, hex] at hp
        · intro s m _ p
          simp [apiGenerate, hst, hsub, hex]
      | some url =>
        refine ⟨?_, ?_⟩
        · intro p hp
          simp only [apiGenerate, hst, hsub, hex] at hp ⊢
          simp at hp
          refine ⟨hp, [Event.storageUpload f.bytes f.mimetype,
            Event.falSubscribe
              (promptFor (convertToDMS (jsParseFloat latField) (jsParseFloat lngField))) [u],
            Event.send (Resp.ok
              { success := true
                imageUrl := url
                message := "Image generated successfully with fal.ai"
                requestId := r.requestId })], by simp [hp],
            ⟨{ success := true
               imageUrl := url
               message := "Image generated successfully with fal.ai"
               requestId := r.requestId }, by simp⟩⟩
        · intro s m hm p
          simp [apiGenerate, hst, hsub, hex] at hm

/-- Witness for C7: a concrete success run (part 1 applied to the unlink
event of its trace) and a concrete storage-failure run (part 2). -/
theorem claim_C7_witness :
    ("uploads/tmp5" = (⟨"uploads/tmp5", "image/png", [7]⟩ : UploadedFile).path ∧
     ∃ pre, apiGenerate none none (some ⟨"uploads/tmp5", "image/png", [7]⟩)
         (fun _ _ => Except.ok "https://storage/img")
         (fun _ _ => Except.ok ⟨some ⟨some [⟨some "https://out/img"⟩], none⟩, "req-44"⟩)
         = pre ++ [Event.unlink "uploads/tmp5"] ∧
       ∃ b, Event.send (Resp.ok b) ∈ pre) ∧
    (∀ p, Event.unlink p ∉ apiGenerate none none (some ⟨"uploads/tmp6", "image/png", [7]⟩)
       (fun _ _ => Except.error "boom") (fun _ _ => Except.error "unused")) :=
  ⟨(claim_C7 none none ⟨"uploads/tmp5", "image/png", [7]⟩
      (fun _ _ => Except.ok "https://storage/img")
      (fun _ _ => Except.ok ⟨some ⟨some [⟨some "https://out/img"⟩], none⟩, "req-44"⟩)).1
      "uploads/tmp5" (by decide),
   (claim_C7 none none ⟨"uploads/tmp6", "image/png", [7]⟩
      (fun _ _ => Except.error "boom") (fun _ _ => Except.error "unused")).2
      500 ("Failed to generate image. " ++ "boom") (by decide)⟩

/-- C9: the handler never validates the `lat`/`lng` form fields: `parseFloat`
of a missing or non-numeric field is `NaN`, and with any file present such a
request never yields a 400 — the storage upload still happens, and (once it
succeeds) the generation call is made with the prompt built from the
`NaN°NaN′NaN″S, NaN°NaN′NaN″W` DMS string (`NaN >= 0` being false selects
S and W). -/
theorem claim_C9 :
    jsParseFloat none = none ∧ jsParseFloat (some "abc") = none ∧
    convertToDMS none none = "NaN°NaN′NaN″S, NaN°NaN′NaN″W" ∧
    (∀ (latField lngField : Option String) (f : UploadedFile)
       (storage : List ℕ → String → Except String String)
       (subscribe : String → List String → Except String GenResult),
       jsParseFloat latField = none → jsParseFloat lngField = none →
       (∀ m, Event.send (Resp.fail 400 m) ∉
         apiGenerate latField lngField (some f) storage subscribe) ∧
       Event.storageUpload f.bytes f.mimetype ∈
         apiGenerate latField lngField (some f) storage subscribe ∧
       (∀ u, storage f.bytes f.mimetype = Except.ok u →
         Event.falSubscribe (promptFor "NaN°NaN′NaN″S, NaN°NaN′NaN″W") [u] ∈
           apiGenerate latField lngField (some f) storage subscribe)) := by
  refine ⟨rfl, by decide, rfl, ?_⟩
  intro latField lngField f storage subscribe hla hlb
  have hnan : convertToDMS (jsParseFloat latField) (jsParseFloat lngField)
      = "NaN°NaN′NaN″S, NaN°NaN′NaN″W" := by
    rw [hla, hlb]
    exact rfl
  refine ⟨?_, ?_, ?_⟩
  · intro m
    cases hst : storage f.bytes f.mimetype with
    | error e => simp [apiGenerate, hst]
    | ok u =>
      cases hsub : subscribe (promptFor (convertToDMS (jsParseFloat latField) (jsParseFloat lngField))) [u] with
      | error e => simp [apiGenerate, hst, hsub]
      | ok r =>
        cases hex : extractUrl r.data with
        | none => simp [apiGenerate, hst, hsub, hex]
        | some url => simp [apiGenerate, hst, hsub, hex]
  · cases hst : storage f.bytes f.mimetype with
    | error e => simp [apiGenerate, hst]
    | ok u =>
      cases hsub : subscribe (promptFor (convertToDMS (jsParseFloat latField) (jsParseFloat lngField))) [u] with
      | error e => simp [apiGenerate, hst, hsub]
      | ok r =>
        cases hex : extractUrl r.data with
        | none => simp [apiGenerate, hst, hsub, hex]
        | some url => simp [apiGenerate, hst, hsub, hex]
  · intro u hst
    rw [← hnan]
    cases hsub : subscribe (promptFor (convertToDMS (jsParseFloat latField) (jsParseFloat lngField))) [u] with
    | error e => simp [apiGenerate, hst, hsub]
    | ok r =>
      cases hex : extractUrl r.data with
      | none => simp [apiGenerate, hst, hsub, hex]
      | some url => simp [apiGenerate, hst, hsub, hex]

/-- Witness for C9 at a request with a missing `lat` field and a non-numeric
`lng` field. -/
theorem claim_C9_witness :
    (∀ m, Event.send (Resp.fail 400 m) ∉
      apiGenerate none (some "oops") (some ⟨"uploads/tmp7", "image/png", [5]⟩)
        (fun _ _ => Except.ok "https://storage/img") (fun _ _ => Except.error "down")) ∧
    Event.storageUpload (⟨"uploads/tmp7", "image/png", [5]⟩ : UploadedFile).bytes
        (⟨"uploads/tmp7", "image/png", [5]⟩ : UploadedFile).mimetype ∈
      apiGenerate none (some "oops") (some ⟨"uploads/tmp7", "image/png", [5]⟩)
        (fun _ _ => Except.ok "https://storage/img") (fun _ _ => Except.error "down") ∧
    (∀ u, (fun _ _ => Except.ok "https://storage/img" :
         List ℕ → String → Except String String)
         (⟨"uploads/tmp7", "image/png", [5]⟩ : UploadedFile).bytes
         (⟨"uploads/tmp7", "image/png", [5]⟩ : UploadedFile).mimetype = Except.ok u →
      Event.falSubscribe (promptFor "NaN°NaN′NaN″S, NaN°NaN′NaN″W") [u] ∈
        apiGenerate none (some "oops") (some ⟨"uploads/tmp7", "image/png", [5]⟩)
          (fun _ _ => Except.ok "https://storage/img") (fun _ _ => Except.error "down")) :=
  claim_C9.2.2.2 none (some "oops") ⟨"uploads/tmp7", "image/png", [5]⟩
    (fun _ _ => Except.ok "https://storage/img") (fun _ _ => Except.error "down")
    rfl (by decide)

/-- C8: caching an uploaded image as a base64 data URL under the fixed
localStorage key and decoding the cached string back to binary reproduces
the bytes exactly. -/
theorem claim_C8 (store : String → Option String) (f : JSFile)
    (hb : ∀ b ∈ f.bytes, b < 256) (ht : ',' ∉ f.type.data) :
    getItem (handleImageUpload store f) goplacesKey = some (readAsDataURL f) ∧
    fetchDataURLBytes (readAsDataURL f) = some f.bytes := by
  constructor
  · simp [handleImageUpload, setItem, getItem]
  · exact cache_bytes_roundtrip f hb ht

/-- Witness for C8 at a concrete three-byte PNG upload. -/
theorem claim_C8_witness :
    getItem (handleImageUpload (fun _ => none) ⟨"me.png", "image/png", [0, 127, 255]⟩)
        goplacesKey
      = some (readAsDataURL ⟨"me.png", "image/png", [0, 127, 255]⟩) ∧
    fetchDataURLBytes (readAsDataURL ⟨"me.png", "image/png", [0, 127, 255]⟩)
      = some [0, 127, 255] :=
  claim_C8 (fun _ => none) ⟨"me.png", "image/png", [0, 127, 255]⟩ (by decide) (by decide)

/-- C10: reconstructing the photo from the cached data URL (as
`loadSavedImage` and the `handleGenerate` retry do) always yields a file
named `uploaded-image.jpg` with declared media type `image/jpeg`, whatever
the original file's MIME type was, while the bytes are preserved. -/
theorem claim_C10 (f : JSFile) (hb : ∀ b ∈ f.bytes, b < 256) (ht : ',' ∉ f.type.data) :
    fileFromCache (readAsDataURL f)
      = some { name := "uploaded-image.jpg", type := "image/jpeg", bytes := f.bytes } := by
  unfold fileFromCache
  rw [cache_bytes_roundtrip f hb ht]
  rfl

/-- Witness for C10 at a concrete PNG upload: the reconstructed file claims
to be a JPEG. -/
theorem claim_C10_witness :
    fileFromCache (readAsDataURL ⟨"photo.png", "image/png", [9, 8, 7, 6]⟩)
      = some { name := "uploaded-image.jpg", type := "image/jpeg", bytes := [9, 8, 7, 6] } :=
  claim_C10 ⟨"photo.png", "image/png", [9, 8, 7, 6]⟩ (by decide) (by decide)

end GoPlaces
